import Mathlib

/-!
Shallow embedding of the feature-generation logic of
`02_feature_engineering.py` (function `get_features`) together with the
data shape produced by `01_data_prep.py` (table `transactions_adj`).

Modelling conventions:
* A transaction row is a `Txn`.  Calendar days are modelled as `Int`:
  the data-prep notebook converts integer day numbers to dates by a fixed
  offset, and all date arithmetic in `get_features` (timedelta
  subtraction, ISO-string BETWEEN comparisons, date differences in the
  days-since aggregates) is affine in the day number, so `Int` arithmetic
  is an exact model.
* Monetary amounts are modelled as `ℚ` (exact arithmetic; the claims under
  verification are about the relational/algebraic structure of the sums,
  not about binary floating-point rounding).
* Spark's non-ANSI division returns NULL on a zero divisor; `divQ` models
  this with `Option ℚ`.
* `countDistinct e` over a group is the number of distinct non-null values
  of `e`; `sum` over a group whose expression is null on every row is
  NULL.  `count(col)` counts non-null values, `count(*)` counts rows; the
  `product_id` column is never null, so both equal the row count.
* A Spark dataframe is a list of rows; `groupBy.agg` produces one row per
  key occurring in the grouped input; a left-outer join against a grouped
  result attaches `none` where no group exists.
* `get_features` raises `Exception('unknown window definition')` for an
  unrecognized window token (modelled as `FeatErr.unsupportedWindow`) and
  fails on an empty input dataset when `max_day` comes back NULL and the
  `timedelta` subtraction inside the selected window branch hits `None`
  (modelled as `FeatErr.emptyDataset`).
* The only eager Spark action inside `get_features` is the `.collect()`
  on the min/max-day aggregation; everything else (the anchor `distinct`,
  the summary and days-since aggregations, the joins) stays lazy until the
  caller materializes the returned dataframe.  The `List AggEvent`
  component of the result records the aggregations that have actually
  executed by the time `get_features` returns or raises.
* The module-level table `transactions` that `get_features` reads the
  anchor key universe from (line 77 of the source) is passed here as the
  explicit first argument `transactions`, distinct from the `df`
  parameter.
-/

/-- One row of the adjusted transaction table (`transactions_adj` schema
from `01_data_prep.py`, restricted to the columns `get_features` reads,
plus the `commodity_desc` product-category label joined in from the
products table). -/
structure Txn where
  household_key : Nat
  basket_id : Nat
  product_id : Nat
  commodity_desc : String
  day : Int
  amount_list : ℚ
  instore_discount : ℚ
  campaign_coupon_discount : ℚ
  manuf_coupon_discount : ℚ
  total_coupon_discount : ℚ
  amount_paid : ℚ
deriving DecidableEq

/-- A grouping key: the household key, and the commodity label when
grouping at the household-commodity level (`include_commodity=True`). -/
abbrev GKey := Nat × Option String

/-- The grouping key of a transaction under the chosen grouping mode
(source lines 69-74: `grouping_fields` is `['household_key']` or
`['household_key', 'commodity_desc']`). -/
def gkey (include_commodity : Bool) (t : Txn) : GKey :=
  (t.household_key, if include_commodity then some t.commodity_desc else none)

/-- Failure modes of `get_features`: the `raise Exception('unknown window
definition')` at line 112 for a bad window token, and the `TypeError`
raised by `None - timedelta(...)` inside a valid window branch when the
dataset is empty (min/max day NULL).  The spec names these
`UnsupportedWindowError` and `EmptyDatasetError`. -/
inductive FeatErr where
  | unsupportedWindow
  | emptyDataset
deriving DecidableEq

/-- Eager aggregation jobs executed inside `get_features`.  The only one
is the `.collect()` on the min/max-day aggregation (source lines 80-88);
the summary and days-since aggregations are lazy and do not run inside
the function. -/
inductive AggEvent where
  | minMaxDayAgg
deriving DecidableEq

/-- Window tokens accepted by `get_features`. -/
def supportedWindows : List String := ["30d", "60d", "90d", "1yr"]

/-- The column-name suffix attached for a window token (source lines
95, 99, 103, 107: `window_suffix = '_' + window`). -/
def window_suffix (w : String) : String := "_" ++ w

/-- The column-name suffix attached for the grouping mode (source lines
71-74: `'_cmd'` when grouping by commodity, else `''`). -/
def grouping_suffix (include_commodity : Bool) : String :=
  if include_commodity then "_cmd" else ""

/-- Window resolution (source lines 93-112).  Input is the window token
and the max day of `df` (`none` when `df` has no rows, since min/max of
an empty aggregation are NULL).  Mirrors the if/elif chain: each valid
branch subtracts a timedelta from `max_day` — which fails on an empty
dataset — and the final else raises the unknown-window exception without
touching `max_day`.  Returns the adjusted `(min_day, max_day,
window_suffix)`. -/
def resolveWindow (window : Option String) (max_day : Option Int) :
    Except FeatErr (Int × Int × String) :=
  if window = some "30d" then
    match max_day with
    | none => Except.error FeatErr.emptyDataset
    | some m => Except.ok (m - (30 - 1), m, window_suffix "30d")
  else if window = some "60d" then
    match max_day with
    | none => Except.error FeatErr.emptyDataset
    | some m => Except.ok (m - (60 - 1), m, window_suffix "60d")
  else if window = some "90d" then
    match max_day with
    | none => Except.error FeatErr.emptyDataset
    | some m => Except.ok (m - (90 - 1), m, window_suffix "90d")
  else if window = some "1yr" then
    match max_day with
    | none => Except.error FeatErr.emptyDataset
    | some m => Except.ok (m - (365 - 1), m - (365 - 1) + (30 - 1), window_suffix "1yr")
  else
    Except.error FeatErr.unsupportedWindow

/-- Number of days in the resolved window (source line 115:
`(max_day - min_day).days + 1`). -/
def daysInWindow (min_day max_day : Int) : Int := max_day - min_day + 1

/-- Spark non-ANSI division: NULL on a zero divisor. -/
def divQ (a b : ℚ) : Option ℚ := if b = 0 then none else some (a / b)

/-- The rows of `df` inside the resolved window (source line 127:
`day between min_day and max_day`; the ISO-date string comparison agrees
with day-number comparison). -/
def windowRows (df : List Txn) (min_day max_day : Int) : List Txn :=
  df.filter (fun t => decide (min_day ≤ t.day) && decide (t.day ≤ max_day))

/-- The rows of `df` in the lifetime lookback of the days-since
aggregation (source line 249: `day <= max_day` only). -/
def lookbackRows (df : List Txn) (max_day : Int) : List Txn :=
  df.filter (fun t => decide (t.day ≤ max_day))

/-- One output row of the windowed summary aggregation `summary_df`
(source lines 125-243): the grouped aggregates of lines 129-166 followed
by the derived ratio columns of lines 168-242.  The field
`products_per_day` is the column created at line 170, whose *name*
carries the window suffix (`f'products_per_day{window_suffix}'`); column
names are modelled separately (`ret_columns` below). -/
structure SummaryRow where
  days : Nat
  baskets : Nat
  products : Nat
  line_items : Nat
  amount_list : ℚ
  instore_discount : ℚ
  campaign_coupon_discount : ℚ
  manuf_coupon_discount : ℚ
  total_coupon_discount : ℚ
  amount_paid : ℚ
  days_with_instore_discount : Nat
  days_with_campaign_coupon_discount : Nat
  days_with_manuf_coupon_discount : Nat
  days_with_total_coupon_discount : Nat
  baskets_with_instore_discount : Nat
  baskets_with_campaign_coupon_discount : Nat
  baskets_with_manuf_coupon_discount : Nat
  baskets_with_total_coupon_discount : Nat
  products_with_instore_discount : Nat
  products_with_campaign_coupon_discount : Nat
  products_with_manuf_coupon_discount : Nat
  products_with_total_coupon_discount : Nat
  line_items_with_instore_discount : Option Nat
  line_items_with_campaign_coupon_discount : Option Nat
  line_items_with_manuf_coupon_discount : Option Nat
  line_items_with_total_coupon_discount : Option Nat
  baskets_per_day : Option ℚ
  products_per_day : Option ℚ
  line_items_per_day : Option ℚ
  amount_list_per_day : Option ℚ
  instore_discount_per_day : Option ℚ
  campaign_coupon_discount_per_day : Option ℚ
  manuf_coupon_discount_per_day : Option ℚ
  total_coupon_discount_per_day : Option ℚ
  amount_paid_per_day : Option ℚ
  days_with_instore_discount_per_days : Option ℚ
  days_with_campaign_coupon_discount_per_days : Option ℚ
  days_with_manuf_coupon_discount_per_days : Option ℚ
  days_with_total_coupon_discount_per_days : Option ℚ
  days_to_days_in_set : Option ℚ
  baskets_per_days_in_set : Option ℚ
  products_to_days_in_set : Option ℚ
  line_items_per_days_in_set : Option ℚ
  amount_list_per_days_in_set : Option ℚ
  instore_discount_per_days_in_set : Option ℚ
  campaign_coupon_discount_per_days_in_set : Option ℚ
  manuf_coupon_discount_per_days_in_set : Option ℚ
  total_coupon_discount_per_days_in_set : Option ℚ
  amount_paid_per_days_in_set : Option ℚ
  days_with_instore_discount_per_days_in_set : Option ℚ
  days_with_campaign_coupon_discount_per_days_in_set : Option ℚ
  days_with_manuf_coupon_discount_per_days_in_set : Option ℚ
  days_with_total_coupon_discount_per_days_in_set : Option ℚ
  products_per_basket : Option ℚ
  line_items_per_basket : Option ℚ
  amount_list_per_basket : Option ℚ
  instore_discount_per_basket : Option ℚ
  campaign_coupon_discount_per_basket : Option ℚ
  manuf_coupon_discount_per_basket : Option ℚ
  total_coupon_discount_per_basket : Option ℚ
  amount_paid_per_basket : Option ℚ
  baskets_with_instore_discount_per_baskets : Option ℚ
  baskets_with_campaign_coupon_discount_per_baskets : Option ℚ
  baskets_with_manuf_coupon_discount_per_baskets : Option ℚ
  baskets_with_total_coupon_discount_per_baskets : Option ℚ
  line_items_per_product : Option ℚ
  amount_list_per_product : Option ℚ
  instore_discount_per_product : Option ℚ
  campaign_coupon_discount_per_product : Option ℚ
  manuf_coupon_discount_per_product : Option ℚ
  total_coupon_discount_per_product : Option ℚ
  amount_paid_per_product : Option ℚ
  products_with_instore_discount_per_product : Option ℚ
  products_with_campaign_coupon_discount_per_product : Option ℚ
  products_with_manuf_coupon_discount_per_product : Option ℚ
  products_with_total_coupon_discount_per_product : Option ℚ
  amount_list_per_line_item : Option ℚ
  instore_discount_per_line_item : Option ℚ
  campaign_coupon_discount_per_line_item : Option ℚ
  manuf_coupon_discount_per_line_item : Option ℚ
  total_coupon_discount_per_line_item : Option ℚ
  amount_paid_per_line_item : Option ℚ
  products_with_instore_discount_per_line_item : Option ℚ
  products_with_campaign_coupon_discount_per_line_item : Option ℚ
  products_with_manuf_coupon_discount_per_line_item : Option ℚ
  products_with_total_coupon_discount_per_line_item : Option ℚ
  campaign_coupon_discount_to_amount_list : Option ℚ
  manuf_coupon_discount_to_amount_list : Option ℚ
  total_coupon_discount_to_amount_list : Option ℚ
  amount_paid_to_amount_list : Option ℚ
deriving DecidableEq

/-- The windowed summary aggregation for one group (source lines
129-242), applied to the rows of that group.  `days_in_window` is the
constant divisor of the per-days-in-set ratios (line 115, interpolated
into the expressions of lines 184-197). -/
def countDistinctBy {a : Type} [DecidableEq a] (f : Txn -> a) (rows : List Txn) : Nat :=
  ((rows.map f).dedup).length

/-- Spark `sum(col)` over a group (the monetary columns are never null
after the adjustment step, so the sum is total). -/
def sumBy (f : Txn -> Rat) (rows : List Txn) : Rat := (rows.map f).sum

/-- Spark `sum(case when P then 1 else null end)` over a group, applied
to the rows of the group satisfying `P`: NULL when no row qualifies,
else the count of qualifying rows. -/
def sumOneOver (qualifying : List Txn) : Option Nat :=
  match qualifying with
  | [] => none
  | l => some l.length

/-- Rows whose in-store discount is strictly positive (the
`case when instore_discount >0 then _ else null end` expressions). -/
def instoreRows (rows : List Txn) : List Txn :=
  rows.filter (fun t => decide (t.instore_discount > 0))

/-- Rows whose campaign-coupon discount is strictly positive. -/
def campaignRows (rows : List Txn) : List Txn :=
  rows.filter (fun t => decide (t.campaign_coupon_discount > 0))

/-- Rows whose manufacturer-coupon discount is strictly positive. -/
def manufRows (rows : List Txn) : List Txn :=
  rows.filter (fun t => decide (t.manuf_coupon_discount > 0))

/-- Rows whose total-coupon discount is strictly positive. -/
def totalRows (rows : List Txn) : List Txn :=
  rows.filter (fun t => decide (t.total_coupon_discount > 0))

/-- The windowed summary aggregation for one group (source lines
129-242), applied to the rows of that group.  `days_in_window` is the
constant divisor of the per-days-in-set ratios (line 115, interpolated
into the expressions of lines 184-197).  `count('product_id')` counts
non-null values and `count(*)` counts rows; `product_id` is never null,
so both are the row count. -/
def summarize (rows : List Txn) (days_in_window : Int) : SummaryRow where
  days := countDistinctBy (fun t => t.day) rows
  baskets := countDistinctBy (fun t => t.basket_id) rows
  products := rows.length
  line_items := rows.length
  amount_list := sumBy (fun t => t.amount_list) rows
  instore_discount := sumBy (fun t => t.instore_discount) rows
  campaign_coupon_discount := sumBy (fun t => t.campaign_coupon_discount) rows
  manuf_coupon_discount := sumBy (fun t => t.manuf_coupon_discount) rows
  total_coupon_discount := sumBy (fun t => t.total_coupon_discount) rows
  amount_paid := sumBy (fun t => t.amount_paid) rows
  days_with_instore_discount := countDistinctBy (fun t => t.day) (instoreRows rows)
  days_with_campaign_coupon_discount := countDistinctBy (fun t => t.day) (campaignRows rows)
  days_with_manuf_coupon_discount := countDistinctBy (fun t => t.day) (manufRows rows)
  days_with_total_coupon_discount := countDistinctBy (fun t => t.day) (totalRows rows)
  baskets_with_instore_discount := countDistinctBy (fun t => t.basket_id) (instoreRows rows)
  baskets_with_campaign_coupon_discount := countDistinctBy (fun t => t.basket_id) (campaignRows rows)
  baskets_with_manuf_coupon_discount := countDistinctBy (fun t => t.basket_id) (manufRows rows)
  baskets_with_total_coupon_discount := countDistinctBy (fun t => t.basket_id) (totalRows rows)
  products_with_instore_discount := countDistinctBy (fun t => t.product_id) (instoreRows rows)
  products_with_campaign_coupon_discount := countDistinctBy (fun t => t.product_id) (campaignRows rows)
  products_with_manuf_coupon_discount := countDistinctBy (fun t => t.product_id) (manufRows rows)
  products_with_total_coupon_discount := countDistinctBy (fun t => t.product_id) (totalRows rows)
  line_items_with_instore_discount := sumOneOver (instoreRows rows)
  line_items_with_campaign_coupon_discount := sumOneOver (campaignRows rows)
  line_items_with_manuf_coupon_discount := sumOneOver (manufRows rows)
  line_items_with_total_coupon_discount := sumOneOver (totalRows rows)
  baskets_per_day := divQ (countDistinctBy (fun t => t.basket_id) rows : Rat) (countDistinctBy (fun t => t.day) rows : Rat)
  products_per_day := divQ (rows.length : Rat) (countDistinctBy (fun t => t.day) rows : Rat)
  line_items_per_day := divQ (rows.length : Rat) (countDistinctBy (fun t => t.day) rows : Rat)
  amount_list_per_day := divQ (sumBy (fun t => t.amount_list) rows : Rat) (countDistinctBy (fun t => t.day) rows : Rat)
  instore_discount_per_day := divQ (sumBy (fun t => t.instore_discount) rows : Rat) (countDistinctBy (fun t => t.day) rows : Rat)
  campaign_coupon_discount_per_day := divQ (sumBy (fun t => t.campaign_coupon_discount) rows : Rat) (countDistinctBy (fun t => t.day) rows : Rat)
  manuf_coupon_discount_per_day := divQ (sumBy (fun t => t.manuf_coupon_discount) rows : Rat) (countDistinctBy (fun t => t.day) rows : Rat)
  total_coupon_discount_per_day := divQ (sumBy (fun t => t.total_coupon_discount) rows : Rat) (countDistinctBy (fun t => t.day) rows : Rat)
  amount_paid_per_day := divQ (sumBy (fun t => t.amount_paid) rows : Rat) (countDistinctBy (fun t => t.day) rows : Rat)
  days_with_instore_discount_per_days := divQ (countDistinctBy (fun t => t.day) (instoreRows rows) : Rat) (countDistinctBy (fun t => t.day) rows : Rat)
  days_with_campaign_coupon_discount_per_days := divQ (countDistinctBy (fun t => t.day) (campaignRows rows) : Rat) (countDistinctBy (fun t => t.day) rows : Rat)
  days_with_manuf_coupon_discount_per_days := divQ (countDistinctBy (fun t => t.day) (manufRows rows) : Rat) (countDistinctBy (fun t => t.day) rows : Rat)
  days_with_total_coupon_discount_per_days := divQ (countDistinctBy (fun t => t.day) (totalRows rows) : Rat) (countDistinctBy (fun t => t.day) rows : Rat)
  days_to_days_in_set := divQ (countDistinctBy (fun t => t.day) rows : Rat) (days_in_window : Rat)
  baskets_per_days_in_set := divQ (countDistinctBy (fun t => t.basket_id) rows : Rat) (days_in_window : Rat)
  products_to_days_in_set := divQ (rows.length : Rat) (days_in_window : Rat)
  line_items_per_days_in_set := divQ (rows.length : Rat) (days_in_window : Rat)
  amount_list_per_days_in_set := divQ (sumBy (fun t => t.amount_list) rows : Rat) (days_in_window : Rat)
  instore_discount_per_days_in_set := divQ (sumBy (fun t => t.instore_discount) rows : Rat) (days_in_window : Rat)
  campaign_coupon_discount_per_days_in_set := divQ (sumBy (fun t => t.campaign_coupon_discount) rows : Rat) (days_in_window : Rat)
  manuf_coupon_discount_per_days_in_set := divQ (sumBy (fun t => t.manuf_coupon_discount) rows : Rat) (days_in_window : Rat)
  total_coupon_discount_per_days_in_set := divQ (sumBy (fun t => t.total_coupon_discount) rows : Rat) (days_in_window : Rat)
  amount_paid_per_days_in_set := divQ (sumBy (fun t => t.amount_paid) rows : Rat) (days_in_window : Rat)
  days_with_instore_discount_per_days_in_set := divQ (countDistinctBy (fun t => t.day) (instoreRows rows) : Rat) (days_in_window : Rat)
  days_with_campaign_coupon_discount_per_days_in_set := divQ (countDistinctBy (fun t => t.day) (campaignRows rows) : Rat) (days_in_window : Rat)
  days_with_manuf_coupon_discount_per_days_in_set := divQ (countDistinctBy (fun t => t.day) (manufRows rows) : Rat) (days_in_window : Rat)
  days_with_total_coupon_discount_per_days_in_set := divQ (countDistinctBy (fun t => t.day) (totalRows rows) : Rat) (days_in_window : Rat)
  products_per_basket := divQ (rows.length : Rat) (countDistinctBy (fun t => t.basket_id) rows : Rat)
  line_items_per_basket := divQ (rows.length : Rat) (countDistinctBy (fun t => t.basket_id) rows : Rat)
  amount_list_per_basket := divQ (sumBy (fun t => t.amount_list) rows : Rat) (countDistinctBy (fun t => t.basket_id) rows : Rat)
  instore_discount_per_basket := divQ (sumBy (fun t => t.instore_discount) rows : Rat) (countDistinctBy (fun t => t.basket_id) rows : Rat)
  campaign_coupon_discount_per_basket := divQ (sumBy (fun t => t.campaign_coupon_discount) rows : Rat) (countDistinctBy (fun t => t.basket_id) rows : Rat)
  manuf_coupon_discount_per_basket := divQ (sumBy (fun t => t.manuf_coupon_discount) rows : Rat) (countDistinctBy (fun t => t.basket_id) rows : Rat)
  total_coupon_discount_per_basket := divQ (sumBy (fun t => t.total_coupon_discount) rows : Rat) (countDistinctBy (fun t => t.basket_id) rows : Rat)
  amount_paid_per_basket := divQ (sumBy (fun t => t.amount_paid) rows : Rat) (countDistinctBy (fun t => t.basket_id) rows : Rat)
  baskets_with_instore_discount_per_baskets := divQ (countDistinctBy (fun t => t.basket_id) (instoreRows rows) : Rat) (countDistinctBy (fun t => t.basket_id) rows : Rat)
  baskets_with_campaign_coupon_discount_per_baskets := divQ (countDistinctBy (fun t => t.basket_id) (campaignRows rows) : Rat) (countDistinctBy (fun t => t.basket_id) rows : Rat)
  baskets_with_manuf_coupon_discount_per_baskets := divQ (countDistinctBy (fun t => t.basket_id) (manufRows rows) : Rat) (countDistinctBy (fun t => t.basket_id) rows : Rat)
  baskets_with_total_coupon_discount_per_baskets := divQ (countDistinctBy (fun t => t.basket_id) (totalRows rows) : Rat) (countDistinctBy (fun t => t.basket_id) rows : Rat)
  line_items_per_product := divQ (rows.length : Rat) (rows.length : Rat)
  amount_list_per_product := divQ (sumBy (fun t => t.amount_list) rows : Rat) (rows.length : Rat)
  instore_discount_per_product := divQ (sumBy (fun t => t.instore_discount) rows : Rat) (rows.length : Rat)
  campaign_coupon_discount_per_product := divQ (sumBy (fun t => t.campaign_coupon_discount) rows : Rat) (rows.length : Rat)
  manuf_coupon_discount_per_product := divQ (sumBy (fun t => t.manuf_coupon_discount) rows : Rat) (rows.length : Rat)
  total_coupon_discount_per_product := divQ (sumBy (fun t => t.total_coupon_discount) rows : Rat) (rows.length : Rat)
  amount_paid_per_product := divQ (sumBy (fun t => t.amount_paid) rows : Rat) (rows.length : Rat)
  products_with_instore_discount_per_product := divQ (countDistinctBy (fun t => t.product_id) (instoreRows rows) : Rat) (rows.length : Rat)
  products_with_campaign_coupon_discount_per_product := divQ (countDistinctBy (fun t => t.product_id) (campaignRows rows) : Rat) (rows.length : Rat)
  products_with_manuf_coupon_discount_per_product := divQ (countDistinctBy (fun t => t.product_id) (manufRows rows) : Rat) (rows.length : Rat)
  products_with_total_coupon_discount_per_product := divQ (countDistinctBy (fun t => t.product_id) (totalRows rows) : Rat) (rows.length : Rat)
  amount_list_per_line_item := divQ (sumBy (fun t => t.amount_list) rows : Rat) (rows.length : Rat)
  instore_discount_per_line_item := divQ (sumBy (fun t => t.instore_discount) rows : Rat) (rows.length : Rat)
  campaign_coupon_discount_per_line_item := divQ (sumBy (fun t => t.campaign_coupon_discount) rows : Rat) (rows.length : Rat)
  manuf_coupon_discount_per_line_item := divQ (sumBy (fun t => t.manuf_coupon_discount) rows : Rat) (rows.length : Rat)
  total_coupon_discount_per_line_item := divQ (sumBy (fun t => t.total_coupon_discount) rows : Rat) (rows.length : Rat)
  amount_paid_per_line_item := divQ (sumBy (fun t => t.amount_paid) rows : Rat) (rows.length : Rat)
  products_with_instore_discount_per_line_item := divQ (countDistinctBy (fun t => t.product_id) (instoreRows rows) : Rat) (rows.length : Rat)
  products_with_campaign_coupon_discount_per_line_item := divQ (countDistinctBy (fun t => t.product_id) (campaignRows rows) : Rat) (rows.length : Rat)
  products_with_manuf_coupon_discount_per_line_item := divQ (countDistinctBy (fun t => t.product_id) (manufRows rows) : Rat) (rows.length : Rat)
  products_with_total_coupon_discount_per_line_item := divQ (countDistinctBy (fun t => t.product_id) (totalRows rows) : Rat) (rows.length : Rat)
  campaign_coupon_discount_to_amount_list := divQ (sumBy (fun t => t.campaign_coupon_discount) rows : Rat) (sumBy (fun t => t.amount_list) rows : Rat)
  manuf_coupon_discount_to_amount_list := divQ (sumBy (fun t => t.manuf_coupon_discount) rows : Rat) (sumBy (fun t => t.amount_list) rows : Rat)
  total_coupon_discount_to_amount_list := divQ (sumBy (fun t => t.total_coupon_discount) rows : Rat) (sumBy (fun t => t.amount_list) rows : Rat)
  amount_paid_to_amount_list := divQ (sumBy (fun t => t.amount_paid) rows : Rat) (sumBy (fun t => t.amount_list) rows : Rat)

/-- One row of the dataframe returned by `get_features` (source lines
259-272): the anchor grouping key, the left-outer-joined summary columns
(all null together when the key has no rows in the window), and the
left-outer-joined days-since columns (all null together when the key has
no rows with `day <= max_day`).  The final cast of every metric column
to double (line 269) is value-preserving in this model. -/
structure FeatureRow where
  key : GKey
  summary : Option SummaryRow
  days_since_instore_discount : Option Int
  days_since_campaign_coupon_discount : Option Int
  days_since_manuf_coupon_discount : Option Int
  days_since_total_coupon_discount : Option Int
deriving DecidableEq

/-- The value aggregated by one days-since expression (source lines
252-255) on one row: `max_day - (case when disc > 0 then day else
min_day end)`, where `min_day`/`max_day` are the *adjusted* window
bounds (the variables were reassigned at lines 94-109 before being
interpolated at line 252). -/
def daysSinceTerm (disc : Txn → ℚ) (min_day max_day : Int) (t : Txn) : Int :=
  max_day - (if disc t > 0 then t.day else min_day)

/-- The row of the `get_features` output for one anchor key: the
left-outer joins of source lines 259-264 materialized per key.  The
summary group exists exactly when the key has a row inside the window;
the days-since group exists exactly when the key has a row with
`day <= max_day`, and then each days-since column is the `min` of its
term over those rows. -/
def mkFeatureRow (include_commodity : Bool) (df : List Txn)
    (min_day max_day : Int) (k : GKey) : FeatureRow :=
  let wrows := (windowRows df min_day max_day).filter
    (fun t => decide (gkey include_commodity t = k))
  let lrows := (lookbackRows df max_day).filter
    (fun t => decide (gkey include_commodity t = k))
  { key := k
    summary :=
      match wrows with
      | [] => none
      | l => some (summarize l (daysInWindow min_day max_day))
    days_since_instore_discount :=
      (lrows.map (daysSinceTerm (fun t => t.instore_discount) min_day max_day)).min?
    days_since_campaign_coupon_discount :=
      (lrows.map (daysSinceTerm (fun t => t.campaign_coupon_discount) min_day max_day)).min?
    days_since_manuf_coupon_discount :=
      (lrows.map (daysSinceTerm (fun t => t.manuf_coupon_discount) min_day max_day)).min?
    days_since_total_coupon_discount :=
      (lrows.map (daysSinceTerm (fun t => t.total_coupon_discount) min_day max_day)).min? }

/-- The feature-generation function (source lines 46-272).

`transactions` is the module-level table the anchor key universe is read
from (line 77); `df` is the function's dataframe parameter, from which
the dataset bounds and every metric are computed.  The first component
of the result is the list of aggregation jobs that have eagerly executed
inside the function (only the min/max-day `.collect()` of lines 80-88,
which runs before the window token is examined); the second is the
returned dataframe, or the error raised. -/
def get_features (transactions df : List Txn) (include_commodity : Bool)
    (window : Option String) :
    List AggEvent × Except FeatErr (List FeatureRow) :=
  let executed := [AggEvent.minMaxDayAgg]
  match resolveWindow window ((df.map (fun t => t.day)).max?) with
  | Except.error e => (executed, Except.error e)
  | Except.ok (min_day, max_day, _) =>
      let anchor_df := (transactions.map (gkey include_commodity)).dedup
      (executed,
        Except.ok (anchor_df.map (mkFeatureRow include_commodity df min_day max_day)))

/-- The four discount types whose adoption and recency metrics
`get_features` computes. -/
inductive DiscType where
  | instore
  | campaign
  | manuf
  | total
deriving DecidableEq

/-- The discount amount of the given type on a transaction. -/
def discAmt : DiscType → Txn → ℚ
  | DiscType.instore, t => t.instore_discount
  | DiscType.campaign, t => t.campaign_coupon_discount
  | DiscType.manuf, t => t.manuf_coupon_discount
  | DiscType.total, t => t.total_coupon_discount

/-- The `days_with_<type>` column of a summary row. -/
def days_with : DiscType → SummaryRow → Nat
  | DiscType.instore, s => s.days_with_instore_discount
  | DiscType.campaign, s => s.days_with_campaign_coupon_discount
  | DiscType.manuf, s => s.days_with_manuf_coupon_discount
  | DiscType.total, s => s.days_with_total_coupon_discount

/-- The `baskets_with_<type>` column of a summary row. -/
def baskets_with : DiscType → SummaryRow → Nat
  | DiscType.instore, s => s.baskets_with_instore_discount
  | DiscType.campaign, s => s.baskets_with_campaign_coupon_discount
  | DiscType.manuf, s => s.baskets_with_manuf_coupon_discount
  | DiscType.total, s => s.baskets_with_total_coupon_discount

/-- The `products_with_<type>` column of a summary row. -/
def products_with : DiscType → SummaryRow → Nat
  | DiscType.instore, s => s.products_with_instore_discount
  | DiscType.campaign, s => s.products_with_campaign_coupon_discount
  | DiscType.manuf, s => s.products_with_manuf_coupon_discount
  | DiscType.total, s => s.products_with_total_coupon_discount

/-- The `line_items_with_<type>` column of a summary row. -/
def line_items_with : DiscType → SummaryRow → Option Nat
  | DiscType.instore, s => s.line_items_with_instore_discount
  | DiscType.campaign, s => s.line_items_with_campaign_coupon_discount
  | DiscType.manuf, s => s.line_items_with_manuf_coupon_discount
  | DiscType.total, s => s.line_items_with_total_coupon_discount

/-- The `days_since_<type>` column of an output row. -/
def days_since : DiscType → FeatureRow → Option Int
  | DiscType.instore, r => r.days_since_instore_discount
  | DiscType.campaign, r => r.days_since_campaign_coupon_discount
  | DiscType.manuf, r => r.days_since_manuf_coupon_discount
  | DiscType.total, r => r.days_since_total_coupon_discount

/-- The strictly-positive-discount filter for each type. -/
def discRows : DiscType → List Txn → List Txn
  | DiscType.instore, rows => instoreRows rows
  | DiscType.campaign, rows => campaignRows rows
  | DiscType.manuf, rows => manufRows rows
  | DiscType.total, rows => totalRows rows

/-- The grouping (join-key) columns of the output (source lines 69-74). -/
def grouping_fields (include_commodity : Bool) : List String :=
  if include_commodity then ["household_key", "commodity_desc"]
  else ["household_key"]

/-- The column names of the grouped aggregates of `summary_df` in source
order (lines 129-166). -/
def summary_agg_columns : List String := [
  "days",
  "baskets",
  "products",
  "line_items",
  "amount_list",
  "instore_discount",
  "campaign_coupon_discount",
  "manuf_coupon_discount",
  "total_coupon_discount",
  "amount_paid",
  "days_with_instore_discount",
  "days_with_campaign_coupon_discount",
  "days_with_manuf_coupon_discount",
  "days_with_total_coupon_discount",
  "baskets_with_instore_discount",
  "baskets_with_campaign_coupon_discount",
  "baskets_with_manuf_coupon_discount",
  "baskets_with_total_coupon_discount",
  "products_with_instore_discount",
  "products_with_campaign_coupon_discount",
  "products_with_manuf_coupon_discount",
  "products_with_total_coupon_discount",
  "line_items_with_instore_discount",
  "line_items_with_campaign_coupon_discount",
  "line_items_with_manuf_coupon_discount",
  "line_items_with_total_coupon_discount"]

/-- The column names of the derived ratio columns of `summary_df` in
source order (lines 168-242).  The column of line 170 is created as
`f'products_per_day{window_suffix}'`, so its name carries the window
suffix already before the final rename pass; every other name is a plain
base name. -/
def ratio_columns (w : String) : List String := [
  "baskets_per_day",
  "products_per_day" ++ window_suffix w,
  "line_items_per_day",
  "amount_list_per_day",
  "instore_discount_per_day",
  "campaign_coupon_discount_per_day",
  "manuf_coupon_discount_per_day",
  "total_coupon_discount_per_day",
  "amount_paid_per_day",
  "days_with_instore_discount_per_days",
  "days_with_campaign_coupon_discount_per_days",
  "days_with_manuf_coupon_discount_per_days",
  "days_with_total_coupon_discount_per_days",
  "days_to_days_in_set",
  "baskets_per_days_in_set",
  "products_to_days_in_set",
  "line_items_per_days_in_set",
  "amount_list_per_days_in_set",
  "instore_discount_per_days_in_set",
  "campaign_coupon_discount_per_days_in_set",
  "manuf_coupon_discount_per_days_in_set",
  "total_coupon_discount_per_days_in_set",
  "amount_paid_per_days_in_set",
  "days_with_instore_discount_per_days_in_set",
  "days_with_campaign_coupon_discount_per_days_in_set",
  "days_with_manuf_coupon_discount_per_days_in_set",
  "days_with_total_coupon_discount_per_days_in_set",
  "products_per_basket",
  "line_items_per_basket",
  "amount_list_per_basket",
  "instore_discount_per_basket",
  "campaign_coupon_discount_per_basket",
  "manuf_coupon_discount_per_basket",
  "total_coupon_discount_per_basket",
  "amount_paid_per_basket",
  "baskets_with_instore_discount_per_baskets",
  "baskets_with_campaign_coupon_discount_per_baskets",
  "baskets_with_manuf_coupon_discount_per_baskets",
  "baskets_with_total_coupon_discount_per_baskets",
  "line_items_per_product",
  "amount_list_per_product",
  "instore_discount_per_product",
  "campaign_coupon_discount_per_product",
  "manuf_coupon_discount_per_product",
  "total_coupon_discount_per_product",
  "amount_paid_per_product",
  "products_with_instore_discount_per_product",
  "products_with_campaign_coupon_discount_per_product",
  "products_with_manuf_coupon_discount_per_product",
  "products_with_total_coupon_discount_per_product",
  "amount_list_per_line_item",
  "instore_discount_per_line_item",
  "campaign_coupon_discount_per_line_item",
  "manuf_coupon_discount_per_line_item",
  "total_coupon_discount_per_line_item",
  "amount_paid_per_line_item",
  "products_with_instore_discount_per_line_item",
  "products_with_campaign_coupon_discount_per_line_item",
  "products_with_manuf_coupon_discount_per_line_item",
  "products_with_total_coupon_discount_per_line_item",
  "campaign_coupon_discount_to_amount_list",
  "manuf_coupon_discount_to_amount_list",
  "total_coupon_discount_to_amount_list",
  "amount_paid_to_amount_list"]

/-- The column names of `dayssince_df` (source lines 252-255). -/
def days_since_columns : List String := [
  "days_since_instore_discount",
  "days_since_campaign_coupon_discount",
  "days_since_manuf_coupon_discount",
  "days_since_total_coupon_discount"]

/-- The columns of `ret_df` before the rename pass (source lines
259-264): join keys first, then the non-key summary columns, then the
non-key days-since columns. -/
def ret_columns (include_commodity : Bool) (w : String) : List String :=
  grouping_fields include_commodity ++ summary_agg_columns ++ ratio_columns w
    ++ days_since_columns

/-- The columns of the returned dataframe after the rename pass (source
lines 266-270): every column not in `grouping_fields` is renamed to
`f'{c}{grouping_suffix}{window_suffix}'`. -/
def output_columns (include_commodity : Bool) (w : String) : List String :=
  (ret_columns include_commodity w).map (fun c =>
    if c ∈ grouping_fields include_commodity then c
    else c ++ grouping_suffix include_commodity ++ window_suffix w)

/-- Number of (possibly overlapping) occurrences of `pat` inside `s`,
counted over character positions. -/
def countOcc (pat s : String) : Nat :=
  ((s.toList.tails).filter (fun suf => pat.toList.isPrefixOf suf)).length

/-- Example dataset: two households; household 2 is active only on day
10, far outside the 30-day window ending at the max day 100. -/
def exA : List Txn := [
  ⟨1, 11, 101, "DAIRY", 100, 10, 0, 0, 0, 0, 10⟩,
  ⟨1, 12, 102, "BREAD", 95, 6, 1, 0, 0, 0, 5⟩,
  ⟨2, 21, 201, "BREAD", 10, 8, 0, 0, 0, 0, 8⟩]

/-- Example dataset for the recency sentinel: one household, activity on
days 1 and 100, never any discount.  Dataset span is 99 days; the
30-day window is [71, 100]. -/
def ex3 : List Txn := [
  ⟨1, 1, 1, "A", 1, 5, 0, 0, 0, 0, 5⟩,
  ⟨1, 2, 2, "A", 100, 5, 0, 0, 0, 0, 5⟩]

/-- Single-household single-basket single-line-item dataset with known
monetary fields (amount_list 10, instore 2, campaign 3, manuf 1,
total 4, paid 4). -/
def tx7 : Txn := ⟨1, 1, 1, "X", 50, 10, 2, 3, 1, 4, 4⟩

/-- One household buying in two categories on the same day: category "A"
with amount_list 10 and category "B" with amount_list 20; the "B" line
has no manufacturer-coupon discount. -/
def ex6 : List Txn := [
  ⟨1, 90, 500, "A", 100, 10, 1, 2, 3, 5, 4⟩,
  ⟨1, 90, 501, "B", 100, 20, 2, 1, 0, 1, 17⟩]

/-- Anchor dataset for the global-`transactions` claim: households 1, 2. -/
def ex10a : List Txn := [
  ⟨1, 1, 1, "A", 100, 3, 0, 0, 0, 0, 3⟩,
  ⟨2, 2, 2, "B", 99, 4, 0, 0, 0, 0, 4⟩]

/-- A `df` argument with a different household (3) than `ex10a`. -/
def ex10b : List Txn := [
  ⟨3, 3, 3, "C", 50, 7, 0, 0, 0, 0, 7⟩]

/-- A throwaway row used as the default of list lookups in the concrete
witnesses. -/
def defaultRow : FeatureRow := mkFeatureRow false [] 0 0 (0, none)

/-- The rows returned by `get_features` on `ex3` (30-day window,
household grouping). -/
def rows3 : List FeatureRow :=
  match (get_features ex3 ex3 false (some "30d")).2 with
  | Except.ok rows => rows
  | Except.error _ => []

/-- The single row of `rows3`. -/
def r3 : FeatureRow := rows3.headD defaultRow

/-- The rows returned by `get_features` on `ex6` at the household level. -/
def rows06 : List FeatureRow :=
  match (get_features ex6 ex6 false (some "30d")).2 with
  | Except.ok rows => rows
  | Except.error _ => []

/-- The household-level row of `rows06`. -/
def r06 : FeatureRow := rows06.headD defaultRow

/-- The rows returned by `get_features` on `ex6` at the
household-commodity level. -/
def rows16 : List FeatureRow :=
  match (get_features ex6 ex6 true (some "30d")).2 with
  | Except.ok rows => rows
  | Except.error _ => []

/-- The (household 1, category "B") row of `rows16`. -/
def r86 : FeatureRow := rows16.getD 1 defaultRow

/-- The monetary-sum value of an output row under a summary projection,
with an absent (null) summary reading as 0 for the purpose of summing
across rows. -/
def sumField (getS : SummaryRow → ℚ) (r : FeatureRow) : ℚ :=
  ((r.summary).map getS).getD 0

lemma max?_of_ne_nil {l : List Int} (h : l ≠ []) : ∃ m, l.max? = some m := by
  cases l with
  | nil => exact absurd rfl h
  | cons a as => exact ⟨as.foldl max a, rfl⟩

lemma mkFeatureRow_key (ic : Bool) (df : List Txn) (lo hi : Int) (k : GKey) :
    (mkFeatureRow ic df lo hi k).key = k := rfl

lemma get_features_ok (transactions df : List Txn) (ic : Bool)
    (window : Option String) (lo hi : Int) (sfx : String)
    (hres : resolveWindow window ((df.map (fun t => t.day)).max?) =
      Except.ok (lo, hi, sfx)) :
    get_features transactions df ic window =
      ([AggEvent.minMaxDayAgg],
        Except.ok (((transactions.map (gkey ic)).dedup).map
          (mkFeatureRow ic df lo hi))) := by
  unfold get_features
  rw [hres]

lemma rows_of_ok (transactions df : List Txn) (ic : Bool)
    (window : Option String) (lo hi : Int) (sfx : String)
    (rows : List FeatureRow)
    (hres : resolveWindow window ((df.map (fun t => t.day)).max?) =
      Except.ok (lo, hi, sfx))
    (hrows : (get_features transactions df ic window).2 = Except.ok rows) :
    rows = ((transactions.map (gkey ic)).dedup).map (mkFeatureRow ic df lo hi) := by
  rw [get_features_ok transactions df ic window lo hi sfx hres] at hrows
  exact (Except.ok.inj hrows).symm

lemma resolve_supported (w : String) (hw : w ∈ supportedWindows) (m : Int) :
    ∃ lo hi, resolveWindow (some w) (some m) = Except.ok (lo, hi, window_suffix w) := by
  simp only [supportedWindows, List.mem_cons, List.not_mem_nil, or_false] at hw
  rcases hw with rfl | rfl | rfl | rfl
  · exact ⟨m - 29, m, rfl⟩
  · exact ⟨m - 59, m, rfl⟩
  · exact ⟨m - 89, m, rfl⟩
  · exact ⟨m - 364, m - 364 + 29, rfl⟩

lemma mkFeatureRow_summary (ic : Bool) (df : List Txn) (lo hi : Int) (k : GKey) :
    (mkFeatureRow ic df lo hi k).summary =
      match (windowRows df lo hi).filter (fun t => decide (gkey ic t = k)) with
      | [] => none
      | l => some (summarize l (daysInWindow lo hi)) := rfl

lemma mkFeatureRow_summary_none (ic : Bool) (df : List Txn) (lo hi : Int) (k : GKey)
    (h : (windowRows df lo hi).filter (fun t => decide (gkey ic t = k)) = []) :
    (mkFeatureRow ic df lo hi k).summary = none := by
  rw [mkFeatureRow_summary, h]

lemma mkFeatureRow_summary_of_ne_nil (ic : Bool) (df : List Txn) (lo hi : Int)
    (k : GKey)
    (h : (windowRows df lo hi).filter (fun t => decide (gkey ic t = k)) ≠ []) :
    (mkFeatureRow ic df lo hi k).summary =
      some (summarize ((windowRows df lo hi).filter (fun t => decide (gkey ic t = k)))
        (daysInWindow lo hi)) := by
  rw [mkFeatureRow_summary]
  cases hc : (windowRows df lo hi).filter (fun t => decide (gkey ic t = k)) with
  | nil => exact absurd hc h
  | cons a as => rfl

lemma mkFeatureRow_days_since (dt : DiscType) (ic : Bool) (df : List Txn)
    (lo hi : Int) (k : GKey) :
    days_since dt (mkFeatureRow ic df lo hi k) =
      (((lookbackRows df hi).filter (fun t => decide (gkey ic t = k))).map
        (daysSinceTerm (discAmt dt) lo hi)).min? := by
  cases dt <;> rfl

lemma foldl_min_const (c : Int) :
    ∀ l : List Int, (∀ x ∈ l, x = c) → l.foldl min c = c := by
  intro l
  induction l with
  | nil => intro _; rfl
  | cons a as ih =>
      intro h
      have ha : a = c := h a (List.mem_cons_self a as)
      have : ∀ x ∈ as, x = c := fun x hx => h x (List.mem_cons_of_mem a hx)
      simp only [List.foldl_cons, ha, min_self]
      exact ih this

lemma min?_const {l : List Int} {c : Int} (hne : l ≠ [])
    (h : ∀ x ∈ l, x = c) : l.min? = some c := by
  cases l with
  | nil => exact absurd rfl hne
  | cons a as =>
      have ha : a = c := h a (List.mem_cons_self a as)
      have has : ∀ x ∈ as, x = c := fun x hx => h x (List.mem_cons_of_mem a hx)
      show some (as.foldl min a) = some c
      rw [ha, foldl_min_const c as has]

lemma foldl_min_le_init : ∀ (l : List Int) (a : Int), l.foldl min a ≤ a := by
  intro l
  induction l with
  | nil => intro a; exact le_refl a
  | cons b bs ih =>
      intro a
      calc (b :: bs).foldl min a = bs.foldl min (min a b) := rfl
        _ ≤ min a b := ih (min a b)
        _ ≤ a := min_le_left a b

lemma foldl_min_le_mem {x : Int} :
    ∀ {l : List Int} (a : Int), x ∈ l → l.foldl min a ≤ x := by
  intro l
  induction l with
  | nil => intro a hx; exact absurd hx (List.not_mem_nil x)
  | cons b bs ih =>
      intro a hx
      rcases List.mem_cons.mp hx with rfl | hx
      · calc (x :: bs).foldl min a = bs.foldl min (min a x) := rfl
          _ ≤ min a x := foldl_min_le_init bs (min a x)
          _ ≤ x := min_le_right a x
      · exact ih (min a b) hx

lemma min?_le_of_mem {l : List Int} {x m : Int} (hm : l.min? = some m)
    (hx : x ∈ l) : m ≤ x := by
  cases l with
  | nil => exact absurd hx (List.not_mem_nil x)
  | cons a as =>
      have hm' : as.foldl min a = m := Option.some.inj hm
      rcases List.mem_cons.mp hx with rfl | hx
      · rw [← hm']; exact foldl_min_le_init as x
      · rw [← hm']; exact foldl_min_le_mem a hx

lemma sum_map_ite_zero {κ : Type} [DecidableEq κ] (x : κ) (v : ℚ) :
    ∀ cs : List κ, x ∉ cs → (cs.map (fun c => if x = c then v else 0)).sum = 0 := by
  intro cs
  induction cs with
  | nil => intro _; rfl
  | cons c cs ih =>
      intro hx
      have hne : x ≠ c := fun h => hx (h ▸ List.mem_cons_self c cs)
      have hxs : x ∉ cs := fun h => hx (List.mem_cons_of_mem c h)
      simp only [List.map_cons, List.sum_cons, if_neg hne, ih hxs, zero_add]

lemma sum_map_ite_single {κ : Type} [DecidableEq κ] (x : κ) (v : ℚ) :
    ∀ cs : List κ, cs.Nodup → x ∈ cs →
      (cs.map (fun c => if x = c then v else 0)).sum = v := by
  intro cs
  induction cs with
  | nil => intro _ hx; exact absurd hx (List.not_mem_nil x)
  | cons c cs ih =>
      intro hnd hx
      rcases List.mem_cons.mp hx with rfl | hx
      · have hxs : x ∉ cs := (List.nodup_cons.mp hnd).1
        rw [List.map_cons, List.sum_cons, if_pos rfl,
          sum_map_ite_zero x v cs hxs, add_zero]
      · have hne : x ≠ c := by
          intro h
          exact (List.nodup_cons.mp hnd).1 (h ▸ hx)
        simp only [List.map_cons, List.sum_cons, if_neg hne, zero_add]
        exact ih (List.nodup_cons.mp hnd).2 hx

lemma sum_fiber {α κ : Type} [DecidableEq κ] (key : α → κ) (g : α → ℚ) :
    ∀ (L : List α) (cs : List κ), cs.Nodup → (∀ t ∈ L, key t ∈ cs) →
      (cs.map (fun c => ((L.filter (fun t => decide (key t = c))).map g).sum)).sum
        = (L.map g).sum := by
  intro L
  induction L with
  | nil =>
      intro cs _ _
      simp
  | cons t ts ih =>
      intro cs hnd hmem
      have hmem' : ∀ u ∈ ts, key u ∈ cs :=
        fun u hu => hmem u (List.mem_cons_of_mem t hu)
      have hstep : ∀ c ∈ cs,
          (((t :: ts).filter (fun u => decide (key u = c))).map g).sum
            = (if key t = c then g t else 0)
              + ((ts.filter (fun u => decide (key u = c))).map g).sum := by
        intro c _
        by_cases h : key t = c
        · simp [List.filter_cons, h]
        · simp [List.filter_cons, h]
      rw [List.map_congr_left hstep, List.sum_map_add,
        sum_map_ite_single (key t) (g t) cs hnd (hmem t (List.mem_cons_self t ts)),
        ih cs hnd hmem']
      simp

lemma sumField_mkFeatureRow (ic : Bool) (df : List Txn) (lo hi : Int) (k : GKey)
    (getS : SummaryRow → ℚ) (getT : Txn → ℚ)
    (hfield : ∀ rows diw, getS (summarize rows diw) = (rows.map getT).sum) :
    sumField getS (mkFeatureRow ic df lo hi k) =
      (((windowRows df lo hi).filter (fun t => decide (gkey ic t = k))).map getT).sum := by
  unfold sumField
  cases hc : (windowRows df lo hi).filter (fun t => decide (gkey ic t = k)) with
  | nil =>
      rw [mkFeatureRow_summary_none ic df lo hi k hc]
      rfl
  | cons a as =>
      rw [mkFeatureRow_summary_of_ne_nil ic df lo hi k (by rw [hc]; exact List.cons_ne_nil a as)]
      rw [hc]
      exact hfield (a :: as) (daysInWindow lo hi)

lemma c6_master (txns : List Txn) (lo hi : Int) (h : Nat)
    (getS : SummaryRow → ℚ) (getT : Txn → ℚ)
    (hfield : ∀ rows diw, getS (summarize rows diw) = (rows.map getT).sum) :
    (((((txns.map (gkey true)).dedup).map (mkFeatureRow true txns lo hi)).filter
        (fun r => decide (r.key.1 = h))).map (sumField getS)).sum
      = sumField getS (mkFeatureRow false txns lo hi (h, none)) := by
  have hA : ((((txns.map (gkey true)).dedup).map (mkFeatureRow true txns lo hi)).filter
      (fun r => decide (r.key.1 = h)))
      = (((txns.map (gkey true)).dedup).filter (fun k => decide (k.1 = h))).map
          (mkFeatureRow true txns lo hi) := by
    rw [List.filter_map]
    rfl
  have hC : ∀ k ∈ ((txns.map (gkey true)).dedup).filter (fun k => decide (k.1 = h)),
      (windowRows txns lo hi).filter (fun t => decide (gkey true t = k))
        = ((windowRows txns lo hi).filter
            (fun t => decide (t.household_key = h))).filter
            (fun t => decide (gkey true t = k)) := by
    intro k hk
    have hk1 : k.1 = h := of_decide_eq_true (List.mem_filter.mp hk).2
    rw [List.filter_filter]
    apply List.filter_congr
    intro t _
    cases hq : decide (gkey true t = k) with
    | false => simp
    | true =>
        have hgk : gkey true t = k := of_decide_eq_true hq
        have hth : t.household_key = h := by
          have h1 : (gkey true t).1 = k.1 := by rw [hgk]
          simpa [gkey, hk1] using h1
        simp [hth]
  have hnd : (((txns.map (gkey true)).dedup).filter (fun k => decide (k.1 = h))).Nodup :=
    ((txns.map (gkey true)).nodup_dedup).filter _
  have hmem : ∀ t ∈ (windowRows txns lo hi).filter
      (fun t => decide (t.household_key = h)),
      gkey true t ∈ ((txns.map (gkey true)).dedup).filter (fun k => decide (k.1 = h)) := by
    intro t ht
    have ht' := List.mem_filter.mp ht
    have htx : t ∈ txns := by
      have := ht'.1
      simp only [windowRows, List.mem_filter] at this
      exact this.1
    refine List.mem_filter.mpr ⟨List.mem_dedup.mpr (List.mem_map_of_mem _ htx), ?_⟩
    exact ht'.2
  have hE : (windowRows txns lo hi).filter (fun t => decide (gkey false t = (h, none)))
      = (windowRows txns lo hi).filter (fun t => decide (t.household_key = h)) := by
    apply List.filter_congr
    intro t _
    apply decide_eq_decide.mpr
    simp [gkey]
  calc (((((txns.map (gkey true)).dedup).map (mkFeatureRow true txns lo hi)).filter
        (fun r => decide (r.key.1 = h))).map (sumField getS)).sum
      = (((((txns.map (gkey true)).dedup).filter (fun k => decide (k.1 = h))).map
          (mkFeatureRow true txns lo hi)).map (sumField getS)).sum := by rw [hA]
    _ = ((((txns.map (gkey true)).dedup).filter (fun k => decide (k.1 = h))).map
          (fun k => (((windowRows txns lo hi).filter
            (fun t => decide (gkey true t = k))).map getT).sum)).sum := by
          rw [List.map_map]
          congr 1
          apply List.map_congr_left
          intro k _
          exact sumField_mkFeatureRow true txns lo hi k getS getT hfield
    _ = ((((txns.map (gkey true)).dedup).filter (fun k => decide (k.1 = h))).map
          (fun k => ((((windowRows txns lo hi).filter
            (fun t => decide (t.household_key = h))).filter
            (fun t => decide (gkey true t = k))).map getT).sum)).sum := by
          congr 1
          apply List.map_congr_left
          intro k hk
          rw [hC k hk]
    _ = (((windowRows txns lo hi).filter
          (fun t => decide (t.household_key = h))).map getT).sum :=
          sum_fiber (gkey true) getT _ _ hnd hmem
    _ = sumField getS (mkFeatureRow false txns lo hi (h, none)) := by
          rw [sumField_mkFeatureRow false txns lo hi (h, none) getS getT hfield, hE]

lemma rows_map_key (txns df : List Txn) (ic : Bool) (lo hi : Int) :
    ((((txns.map (gkey ic)).dedup).map (mkFeatureRow ic df lo hi)).map
        FeatureRow.key)
      = (txns.map (gkey ic)).dedup := by
  rw [List.map_map]
  have h : ∀ k ∈ (txns.map (gkey ic)).dedup,
      (FeatureRow.key ∘ mkFeatureRow ic df lo hi) k = k := fun k _ => rfl
  rw [List.map_congr_left h]
  simp

lemma discRows_eq_nil (dt : DiscType) (rows : List Txn)
    (hno : ∀ t ∈ rows, ¬ discAmt dt t > 0) : discRows dt rows = [] := by
  cases dt <;>
  · refine List.filter_eq_nil_iff.mpr ?_
    intro t ht
    simpa [discAmt] using hno t ht

lemma summarize_days_with (dt : DiscType) (rows : List Txn) (diw : Int) :
    days_with dt (summarize rows diw) =
      countDistinctBy (fun t => t.day) (discRows dt rows) := by
  cases dt <;> rfl

lemma summarize_baskets_with (dt : DiscType) (rows : List Txn) (diw : Int) :
    baskets_with dt (summarize rows diw) =
      countDistinctBy (fun t => t.basket_id) (discRows dt rows) := by
  cases dt <;> rfl

lemma summarize_products_with (dt : DiscType) (rows : List Txn) (diw : Int) :
    products_with dt (summarize rows diw) =
      countDistinctBy (fun t => t.product_id) (discRows dt rows) := by
  cases dt <;> rfl

lemma summarize_line_items_with (dt : DiscType) (rows : List Txn) (diw : Int) :
    line_items_with dt (summarize rows diw) = sumOneOver (discRows dt rows) := by
  cases dt <;> rfl

/-- C1: for every non-empty transaction set, every supported window and
both grouping modes, `get_features` (invoked, as in the notebook, with
its `df` parameter equal to the anchoring `transactions` set) returns
exactly one row per distinct grouping key appearing anywhere in the full
set: the list of output keys is exactly the distinct-key list, without
omission or duplication, and a key with no transaction inside the
resolved window has all its summary metric columns null
(`summary = none`) rather than a missing row.  (The lifetime days-since
columns are governed by the separate `day <= max_day` lookback and may
be non-null for such a key.) -/
theorem c1_row_per_distinct_key (txns : List Txn) (ic : Bool) (w : String)
    (hw : w ∈ supportedWindows) (hne : txns ≠ []) :
    ∃ lo hi rows,
      resolveWindow (some w) ((txns.map (fun t => t.day)).max?) =
        Except.ok (lo, hi, window_suffix w) ∧
      (get_features txns txns ic (some w)).2 = Except.ok rows ∧
      rows.map FeatureRow.key = (txns.map (gkey ic)).dedup ∧
      (rows.map FeatureRow.key).Nodup ∧
      (∀ k : GKey, k ∈ rows.map FeatureRow.key ↔ k ∈ txns.map (gkey ic)) ∧
      (∀ r ∈ rows,
        (∀ t ∈ txns, gkey ic t = r.key → ¬(lo ≤ t.day ∧ t.day ≤ hi)) →
        r.summary = none) := by
  have hmapne : txns.map (fun t => t.day) ≠ [] := by
    cases txns with
    | nil => exact absurd rfl hne
    | cons a as => simp
  obtain ⟨m, hm⟩ := max?_of_ne_nil hmapne
  obtain ⟨lo, hi, hres0⟩ := resolve_supported w hw m
  have hres : resolveWindow (some w) ((txns.map (fun t => t.day)).max?) =
      Except.ok (lo, hi, window_suffix w) := by rw [hm]; exact hres0
  refine ⟨lo, hi, ((txns.map (gkey ic)).dedup).map (mkFeatureRow ic txns lo hi),
    hres, ?_, rows_map_key txns txns ic lo hi, ?_, ?_, ?_⟩
  · rw [get_features_ok txns txns ic (some w) lo hi (window_suffix w) hres]
  · rw [rows_map_key]
    exact (txns.map (gkey ic)).nodup_dedup
  · intro k
    rw [rows_map_key]
    exact List.mem_dedup
  · intro r hr hno
    obtain ⟨k, hk, rfl⟩ := List.mem_map.mp hr
    apply mkFeatureRow_summary_none
    refine List.filter_eq_nil_iff.mpr ?_
    intro t ht hdec
    simp only [windowRows, List.mem_filter] at ht
    have hgk : gkey ic t = k := of_decide_eq_true hdec
    have hwin := (Bool.and_eq_true _ _).mp ht.2
    exact hno t ht.1 hgk ⟨of_decide_eq_true hwin.1, of_decide_eq_true hwin.2⟩

/-- C10: the anchor key universe of `get_features` comes from the
module-level `transactions` table, not from the `df` parameter: for any
non-empty `df`, the output keys are exactly the distinct grouping keys
of `transactions`, while every row's metrics are built from `df` alone
(the output is precisely the anchor keys of `transactions` mapped
through the per-key row builder over `df`). -/
theorem c10_anchor_is_global_transactions (txns df : List Txn) (ic : Bool)
    (w : String) (hw : w ∈ supportedWindows) (hdf : df ≠ []) :
    ∃ lo hi rows,
      resolveWindow (some w) ((df.map (fun t => t.day)).max?) =
        Except.ok (lo, hi, window_suffix w) ∧
      (get_features txns df ic (some w)).2 = Except.ok rows ∧
      rows = ((txns.map (gkey ic)).dedup).map (mkFeatureRow ic df lo hi) ∧
      rows.map FeatureRow.key = (txns.map (gkey ic)).dedup := by
  have hmapne : df.map (fun t => t.day) ≠ [] := by
    cases df with
    | nil => exact absurd rfl hdf
    | cons a as => simp
  obtain ⟨m, hm⟩ := max?_of_ne_nil hmapne
  obtain ⟨lo, hi, hres0⟩ := resolve_supported w hw m
  have hres : resolveWindow (some w) ((df.map (fun t => t.day)).max?) =
      Except.ok (lo, hi, window_suffix w) := by rw [hm]; exact hres0
  refine ⟨lo, hi, ((txns.map (gkey ic)).dedup).map (mkFeatureRow ic df lo hi),
    hres, ?_, rfl, rows_map_key txns df ic lo hi⟩
  rw [get_features_ok txns df ic (some w) lo hi (window_suffix w) hres]

/-- C5: for every supported window and either grouping mode, calling
`get_features` on a transaction set with no rows fails with the
empty-dataset error (the min/max day bounds come back null and the
window arithmetic on them raises; the spec names this
`EmptyDatasetError`). -/
theorem c5_empty_dataset (txns : List Txn) (ic : Bool) (w : String)
    (hw : w ∈ supportedWindows) :
    (get_features txns [] ic (some w)).2 = Except.error FeatErr.emptyDataset := by
  simp only [supportedWindows, List.mem_cons, List.not_mem_nil, or_false] at hw
  rcases hw with rfl | rfl | rfl | rfl <;> rfl

/-- C4 (amended): calling `get_features` with a window token other than
the four supported values fails with the unsupported-window error (the
spec names it `UnsupportedWindowError`), and the rejection happens
before the summary and days-since aggregations execute — but *after*
the min/max-day bounds aggregation over the transactions has been
eagerly collected, which is the one aggregation the trace records. -/
theorem c4_unknown_window_rejection (txns df : List Txn) (ic : Bool)
    (window : Option String)
    (hbad : ∀ s, window = some s → s ∉ supportedWindows) :
    get_features txns df ic window =
      ([AggEvent.minMaxDayAgg], Except.error FeatErr.unsupportedWindow) := by
  have h30 : window ≠ some "30d" := fun h => hbad "30d" h (by decide)
  have h60 : window ≠ some "60d" := fun h => hbad "60d" h (by decide)
  have h90 : window ≠ some "90d" := fun h => hbad "90d" h (by decide)
  have h1y : window ≠ some "1yr" := fun h => hbad "1yr" h (by decide)
  have hres : resolveWindow window ((df.map (fun t => t.day)).max?) =
      Except.error FeatErr.unsupportedWindow := by
    unfold resolveWindow
    rw [if_neg h30, if_neg h60, if_neg h90, if_neg h1y]
  unfold get_features
  rw [hres]

/-- C4 counterexample to the claim as stated: on a concrete non-empty
dataset and the unknown window token "monthly", `get_features` does
reject with the unsupported-window error, but the execution trace at the
moment of rejection already contains the min/max-day aggregation over
the transactions — it is not empty — so the rejection does *not* happen
before any aggregation over the transactions executes. -/
theorem c4_agg_runs_before_rejection_cex :
    get_features exA exA false (some "monthly") =
      ([AggEvent.minMaxDayAgg], Except.error FeatErr.unsupportedWindow) ∧
    [AggEvent.minMaxDayAgg] ≠ ([] : List AggEvent) ∧ exA ≠ [] :=
  ⟨rfl, by decide, by decide⟩

/-- Witness for C4's amended theorem at a concrete input. -/
theorem c4_unknown_window_rejection_witness :
    get_features exA exA false (some "monthly") =
      ([AggEvent.minMaxDayAgg], Except.error FeatErr.unsupportedWindow) :=
  c4_unknown_window_rejection exA exA false (some "monthly")
    (fun s hs => by cases hs; decide)

/-- C2: for every dataset whose maximum day is `m`, the four windows
resolve to the inclusive day ranges [m-29, m], [m-59, m], [m-89, m] and
[m-364, m-335] (start = m-364, end = start+29), and `days_in_window` —
the constant divisor of the per-days-in-set ratios — is the inclusive
day count of the range: 30, 60, 90 and 30 respectively, regardless of
observed activity. -/
theorem c2_window_resolution (df : List Txn) (m : Int)
    (hm : (df.map (fun t => t.day)).max? = some m) :
    resolveWindow (some "30d") ((df.map (fun t => t.day)).max?) =
      Except.ok (m - 29, m, "_30d") ∧
    resolveWindow (some "60d") ((df.map (fun t => t.day)).max?) =
      Except.ok (m - 59, m, "_60d") ∧
    resolveWindow (some "90d") ((df.map (fun t => t.day)).max?) =
      Except.ok (m - 89, m, "_90d") ∧
    resolveWindow (some "1yr") ((df.map (fun t => t.day)).max?) =
      Except.ok (m - 364, m - 335, "_1yr") ∧
    daysInWindow (m - 29) m = 30 ∧
    daysInWindow (m - 59) m = 60 ∧
    daysInWindow (m - 89) m = 90 ∧
    daysInWindow (m - 364) (m - 335) = 30 := by
  rw [hm]
  have h1 : m - 364 + 29 = m - 335 := by omega
  refine ⟨rfl, rfl, rfl, ?_, ?_, ?_, ?_, ?_⟩
  · calc resolveWindow (some "1yr") (some m)
        = Except.ok (m - 364, m - 364 + 29, "_1yr") := rfl
      _ = Except.ok (m - 364, m - 335, "_1yr") := by rw [h1]
  · unfold daysInWindow; omega
  · unfold daysInWindow; omega
  · unfold daysInWindow; omega
  · unfold daysInWindow; omega

/-- C3 (amended): the days-since recency metric is computed over the
lifetime lookback `day <= max_day`, and for a grouping key with at least
one lookback transaction but no strictly-positive occurrence of the
discount type, it equals the sentinel `max_day - min_day` — window end
minus *window start* (the reassigned `min_day` of lines 94-109), i.e.
`days_in_window - 1` — not window end minus the start of history (the
dataset's full min-to-max span), and not a null. -/
theorem c3_recency_sentinel (txns df : List Txn) (ic : Bool) (w : String)
    (lo hi : Int) (rows : List FeatureRow) (r : FeatureRow) (k : GKey)
    (dt : DiscType)
    (hres : resolveWindow (some w) ((df.map (fun t => t.day)).max?) =
      Except.ok (lo, hi, window_suffix w))
    (hrows : (get_features txns df ic (some w)).2 = Except.ok rows)
    (hr : r ∈ rows) (hk : r.key = k)
    (hlb : (lookbackRows df hi).filter (fun t => decide (gkey ic t = k)) ≠ [])
    (hno : ∀ t ∈ lookbackRows df hi, gkey ic t = k → ¬ discAmt dt t > 0) :
    days_since dt r = some (hi - lo) ∧ hi - lo = daysInWindow lo hi - 1 := by
  have hrw := rows_of_ok txns df ic (some w) lo hi (window_suffix w) rows hres hrows
  rw [hrw] at hr
  obtain ⟨k', hk', rfl⟩ := List.mem_map.mp hr
  have hkk : k' = k := hk
  subst hkk
  constructor
  · rw [mkFeatureRow_days_since]
    apply min?_const
    · intro hmapnil
      exact hlb (List.map_eq_nil_iff.mp hmapnil)
    · intro x hx
      obtain ⟨t, ht, rfl⟩ := List.mem_map.mp hx
      have ht' := List.mem_filter.mp ht
      have hgk : gkey ic t = k' := of_decide_eq_true ht'.2
      unfold daysSinceTerm
      rw [if_neg (hno t ht'.1 hgk)]
  · unfold daysInWindow
    omega

/-- C3 counterexample to the claim as stated: on `ex3` (one household,
activity on days 1 and 100, no discounts anywhere), with the 30-day
window [71, 100], the days-since-in-store-discount metric is 29 — window
end minus window start — whereas the claim's sentinel, window end minus
start-of-history (the full min-to-max day span 100 - 1 = 99), differs. -/
theorem c3_recency_sentinel_cex :
    rows3.map (fun r => days_since DiscType.instore r) = [some 29] ∧
    (ex3.map (fun t => t.day)).min? = some 1 ∧
    (ex3.map (fun t => t.day)).max? = some 100 ∧
    (29 : Int) ≠ 100 - 1 := by decide

/-- Witness for C3's amended theorem at a concrete input: on `ex3` the
(1, none) key has lookback activity, never a positive in-store discount,
and its recency metric is the sentinel 100 - 71 = 29. -/
theorem c3_recency_sentinel_witness :
    days_since DiscType.instore r3 = some ((100 : Int) - 71) ∧
    (100 : Int) - 71 = daysInWindow 71 100 - 1 :=
  c3_recency_sentinel ex3 ex3 false "30d" 71 100 rows3 r3 (1, none)
    DiscType.instore rfl rfl (List.mem_singleton.mpr rfl) rfl (by decide)
    (by decide)

/-- C6: for any transaction set (anchored on itself, as in the
notebook), any resolved window and any household, the sum of each
monetary-sum feature over all of that household's per-category rows
(`include_commodity = true`, absent summaries counting as 0) equals the
feature's value in the household's single `include_commodity = false`
row; a household with two categories splits into two rows whose sums
total the household-level sums. -/
theorem c6_category_sums_split (txns : List Txn) (w : String) (lo hi : Int)
    (h : Nat) (rows0 rows1 : List FeatureRow) (r0 : FeatureRow)
    (hres : resolveWindow (some w) ((txns.map (fun t => t.day)).max?) =
      Except.ok (lo, hi, window_suffix w))
    (h0 : (get_features txns txns false (some w)).2 = Except.ok rows0)
    (h1 : (get_features txns txns true (some w)).2 = Except.ok rows1)
    (hr0 : r0 ∈ rows0) (hk0 : r0.key = (h, none)) :
    ((rows1.filter (fun r => decide (r.key.1 = h))).map
        (sumField (fun s => s.amount_list))).sum
      = sumField (fun s => s.amount_list) r0 ∧
    ((rows1.filter (fun r => decide (r.key.1 = h))).map
        (sumField (fun s => s.instore_discount))).sum
      = sumField (fun s => s.instore_discount) r0 ∧
    ((rows1.filter (fun r => decide (r.key.1 = h))).map
        (sumField (fun s => s.campaign_coupon_discount))).sum
      = sumField (fun s => s.campaign_coupon_discount) r0 ∧
    ((rows1.filter (fun r => decide (r.key.1 = h))).map
        (sumField (fun s => s.manuf_coupon_discount))).sum
      = sumField (fun s => s.manuf_coupon_discount) r0 ∧
    ((rows1.filter (fun r => decide (r.key.1 = h))).map
        (sumField (fun s => s.total_coupon_discount))).sum
      = sumField (fun s => s.total_coupon_discount) r0 ∧
    ((rows1.filter (fun r => decide (r.key.1 = h))).map
        (sumField (fun s => s.amount_paid))).sum
      = sumField (fun s => s.amount_paid) r0 := by
  have hrw1 := rows_of_ok txns txns true (some w) lo hi (window_suffix w)
    rows1 hres h1
  have hrw0 := rows_of_ok txns txns false (some w) lo hi (window_suffix w)
    rows0 hres h0
  subst hrw1
  rw [hrw0] at hr0
  obtain ⟨k0, hk0', rfl⟩ := List.mem_map.mp hr0
  have hkk : k0 = (h, none) := hk0
  subst hkk
  exact ⟨c6_master txns lo hi h (fun s => s.amount_list)
      (fun t => t.amount_list) (fun rows diw => rfl),
    c6_master txns lo hi h (fun s => s.instore_discount)
      (fun t => t.instore_discount) (fun rows diw => rfl),
    c6_master txns lo hi h (fun s => s.campaign_coupon_discount)
      (fun t => t.campaign_coupon_discount) (fun rows diw => rfl),
    c6_master txns lo hi h (fun s => s.manuf_coupon_discount)
      (fun t => t.manuf_coupon_discount) (fun rows diw => rfl),
    c6_master txns lo hi h (fun s => s.total_coupon_discount)
      (fun t => t.total_coupon_discount) (fun rows diw => rfl),
    c6_master txns lo hi h (fun s => s.amount_paid)
      (fun t => t.amount_paid) (fun rows diw => rfl)⟩

/-- Witness for C6 on `ex6`: household 1 has two per-category rows whose
monetary sums total the household-level sums. -/
theorem c6_category_sums_split_witness :
    ((rows16.filter (fun r => decide (r.key.1 = 1))).map
        (sumField (fun s => s.amount_list))).sum
      = sumField (fun s => s.amount_list) r06 ∧
    ((rows16.filter (fun r => decide (r.key.1 = 1))).map
        (sumField (fun s => s.instore_discount))).sum
      = sumField (fun s => s.instore_discount) r06 ∧
    ((rows16.filter (fun r => decide (r.key.1 = 1))).map
        (sumField (fun s => s.campaign_coupon_discount))).sum
      = sumField (fun s => s.campaign_coupon_discount) r06 ∧
    ((rows16.filter (fun r => decide (r.key.1 = 1))).map
        (sumField (fun s => s.manuf_coupon_discount))).sum
      = sumField (fun s => s.manuf_coupon_discount) r06 ∧
    ((rows16.filter (fun r => decide (r.key.1 = 1))).map
        (sumField (fun s => s.total_coupon_discount))).sum
      = sumField (fun s => s.total_coupon_discount) r06 ∧
    ((rows16.filter (fun r => decide (r.key.1 = 1))).map
        (sumField (fun s => s.amount_paid))).sum
      = sumField (fun s => s.amount_paid) r06 :=
  c6_category_sums_split ex6 "30d" 71 100 1 rows06 rows16 r06 rfl rfl rfl
    (List.mem_singleton.mpr rfl) rfl

/-- C7: on the single-household, single-day, single-basket, one-line-item
dataset `[tx7]` with amount_list 10, instore_discount 2,
campaign_coupon_discount 3, manuf_coupon_discount 1 (and
total_coupon_discount 4, amount_paid 4), `get_features` with window
"30d" returns exactly one row, whose monetary sums equal the literal
inputs, whose `baskets_per_day` is 1, and whose `days_to_days_in_set`
is 1/30. -/
theorem c7_single_line_item :
    (get_features [tx7] [tx7] false (some "30d")).2 =
      Except.ok [mkFeatureRow false [tx7] 21 50 (1, none)] ∧
    (mkFeatureRow false [tx7] 21 50 (1, none)).summary =
      some (summarize [tx7] 30) ∧
    (summarize [tx7] 30).amount_list = 10 ∧
    (summarize [tx7] 30).instore_discount = 2 ∧
    (summarize [tx7] 30).campaign_coupon_discount = 3 ∧
    (summarize [tx7] 30).manuf_coupon_discount = 1 ∧
    (summarize [tx7] 30).total_coupon_discount = 4 ∧
    (summarize [tx7] 30).amount_paid = 4 ∧
    (summarize [tx7] 30).baskets_per_day = some 1 ∧
    (summarize [tx7] 30).days_to_days_in_set = some (1 / 30) := by
  have hd : countDistinctBy (fun t => t.day) ([tx7] : List Txn) = 1 := by decide
  have hb : countDistinctBy (fun t => t.basket_id) ([tx7] : List Txn) = 1 := by
    decide
  refine ⟨rfl, rfl, ?_, ?_, ?_, ?_, ?_, ?_, ?_, ?_⟩
  · show sumBy (fun t => t.amount_list) [tx7] = 10
    simp [sumBy, tx7]
  · show sumBy (fun t => t.instore_discount) [tx7] = 2
    simp [sumBy, tx7]
  · show sumBy (fun t => t.campaign_coupon_discount) [tx7] = 3
    simp [sumBy, tx7]
  · show sumBy (fun t => t.manuf_coupon_discount) [tx7] = 1
    simp [sumBy, tx7]
  · show sumBy (fun t => t.total_coupon_discount) [tx7] = 4
    simp [sumBy, tx7]
  · show sumBy (fun t => t.amount_paid) [tx7] = 4
    simp [sumBy, tx7]
  · show divQ (countDistinctBy (fun t => t.basket_id) ([tx7] : List Txn) : ℚ)
        (countDistinctBy (fun t => t.day) ([tx7] : List Txn) : ℚ) = some 1
    rw [hd, hb]
    norm_num [divQ]
  · show divQ (countDistinctBy (fun t => t.day) ([tx7] : List Txn) : ℚ)
        ((30 : Int) : ℚ) = some (1 / 30)
    rw [hd]
    norm_num [divQ]

/-- C8: for a grouping key with at least one transaction inside the
window but no strictly-positive discount of a given type, the adoption
counts are asymmetric: `days_with_X`, `baskets_with_X` and
`products_with_X` are 0 (countDistinct over an all-null expression)
while `line_items_with_X` is null (sum over an all-null expression),
not 0. -/
theorem c8_adoption_null_asymmetry (txns df : List Txn) (ic : Bool)
    (w : String) (lo hi : Int) (rows : List FeatureRow) (r : FeatureRow)
    (k : GKey) (dt : DiscType)
    (hres : resolveWindow (some w) ((df.map (fun t => t.day)).max?) =
      Except.ok (lo, hi, window_suffix w))
    (hrows : (get_features txns df ic (some w)).2 = Except.ok rows)
    (hr : r ∈ rows) (hk : r.key = k)
    (hact : (windowRows df lo hi).filter (fun t => decide (gkey ic t = k)) ≠ [])
    (hno : ∀ t ∈ windowRows df lo hi, gkey ic t = k → ¬ discAmt dt t > 0) :
    ∃ s, r.summary = some s ∧ days_with dt s = 0 ∧ baskets_with dt s = 0 ∧
      products_with dt s = 0 ∧ line_items_with dt s = none := by
  have hrw := rows_of_ok txns df ic (some w) lo hi (window_suffix w) rows
    hres hrows
  rw [hrw] at hr
  obtain ⟨k', hk', rfl⟩ := List.mem_map.mp hr
  have hkk : k' = k := hk
  subst hkk
  have hdnil : discRows dt ((windowRows df lo hi).filter
      (fun t => decide (gkey ic t = k'))) = [] := by
    apply discRows_eq_nil
    intro t ht
    have ht' := List.mem_filter.mp ht
    exact hno t ht'.1 (of_decide_eq_true ht'.2)
  refine ⟨summarize ((windowRows df lo hi).filter
      (fun t => decide (gkey ic t = k'))) (daysInWindow lo hi),
    mkFeatureRow_summary_of_ne_nil ic df lo hi k' hact, ?_, ?_, ?_, ?_⟩
  · rw [summarize_days_with, hdnil]
    rfl
  · rw [summarize_baskets_with, hdnil]
    rfl
  · rw [summarize_products_with, hdnil]
    rfl
  · rw [summarize_line_items_with, hdnil]
    rfl

/-- Witness for C8 on `ex6`: the (household 1, category "B") key has one
transaction in the window and no positive manufacturer-coupon discount,
so its day/basket/product adoption counts are 0 while its line-item
count is null. -/
theorem c8_adoption_null_asymmetry_witness :
    ∃ s, r86.summary = some s ∧ days_with DiscType.manuf s = 0 ∧
      baskets_with DiscType.manuf s = 0 ∧
      products_with DiscType.manuf s = 0 ∧
      line_items_with DiscType.manuf s = none :=
  c8_adoption_null_asymmetry ex6 ex6 true "30d" 71 100 rows16 r86
    (1, some "B") DiscType.manuf rfl rfl
    (List.mem_cons_of_mem _ (List.mem_cons_self _ _)) rfl (by decide)
    (by decide)

/-- C9: for every supported window and both grouping modes, the renamed
per-day products column carries the window suffix twice — once embedded
at creation (line 170) and once appended by the rename pass (line 270),
e.g. `products_per_day_30d_30d` for window "30d" at the household
level — and it is the only such column: every other non-grouping metric
column contains the window suffix exactly once and ends with the
grouping suffix followed by the window suffix. -/
theorem c9_products_per_day_double_suffix :
    ∀ w ∈ supportedWindows, ∀ ic ∈ [false, true],
      (output_columns ic w).count
          ("products_per_day" ++ window_suffix w ++ grouping_suffix ic
            ++ window_suffix w) = 1 ∧
      countOcc (window_suffix w)
          ("products_per_day" ++ window_suffix w ++ grouping_suffix ic
            ++ window_suffix w) = 2 ∧
      ∀ c ∈ output_columns ic w, c ∉ grouping_fields ic →
        c ≠ "products_per_day" ++ window_suffix w ++ grouping_suffix ic
            ++ window_suffix w →
        countOcc (window_suffix w) c = 1 ∧
        (grouping_suffix ic ++ window_suffix w).toList.isSuffixOf
          c.toList = true := by
  decide

/-- Witness for C9 at window "30d", household grouping. -/
theorem c9_products_per_day_double_suffix_witness :
    (output_columns false "30d").count
        ("products_per_day" ++ window_suffix "30d" ++ grouping_suffix false
          ++ window_suffix "30d") = 1 ∧
    countOcc (window_suffix "30d")
        ("products_per_day" ++ window_suffix "30d" ++ grouping_suffix false
          ++ window_suffix "30d") = 2 ∧
    ∀ c ∈ output_columns false "30d", c ∉ grouping_fields false →
      c ≠ "products_per_day" ++ window_suffix "30d" ++ grouping_suffix false
          ++ window_suffix "30d" →
      countOcc (window_suffix "30d") c = 1 ∧
      (grouping_suffix false ++ window_suffix "30d").toList.isSuffixOf
        c.toList = true :=
  c9_products_per_day_double_suffix "30d" (by decide) false (by decide)

/-- Witness for C1 on `exA` at window "30d", household-commodity
grouping. -/
theorem c1_row_per_distinct_key_witness :
    ∃ lo hi rows,
      resolveWindow (some "30d") ((exA.map (fun t => t.day)).max?) =
        Except.ok (lo, hi, window_suffix "30d") ∧
      (get_features exA exA true (some "30d")).2 = Except.ok rows ∧
      rows.map FeatureRow.key = (exA.map (gkey true)).dedup ∧
      (rows.map FeatureRow.key).Nodup ∧
      (∀ k : GKey, k ∈ rows.map FeatureRow.key ↔ k ∈ exA.map (gkey true)) ∧
      (∀ r ∈ rows,
        (∀ t ∈ exA, gkey true t = r.key → ¬(lo ≤ t.day ∧ t.day ≤ hi)) →
        r.summary = none) :=
  c1_row_per_distinct_key exA true "30d" (by decide) (by decide)

/-- Witness for C2 on `exA`, whose maximum day is 100. -/
theorem c2_window_resolution_witness :
    resolveWindow (some "30d") ((exA.map (fun t => t.day)).max?) =
      Except.ok (100 - 29, 100, "_30d") ∧
    resolveWindow (some "60d") ((exA.map (fun t => t.day)).max?) =
      Except.ok (100 - 59, 100, "_60d") ∧
    resolveWindow (some "90d") ((exA.map (fun t => t.day)).max?) =
      Except.ok (100 - 89, 100, "_90d") ∧
    resolveWindow (some "1yr") ((exA.map (fun t => t.day)).max?) =
      Except.ok (100 - 364, 100 - 335, "_1yr") ∧
    daysInWindow (100 - 29) 100 = 30 ∧
    daysInWindow (100 - 59) 100 = 60 ∧
    daysInWindow (100 - 89) 100 = 90 ∧
    daysInWindow (100 - 364) (100 - 335) = 30 :=
  c2_window_resolution exA 100 rfl

/-- Witness for C5: the empty dataset fails for the "60d" window. -/
theorem c5_empty_dataset_witness :
    (get_features exA [] false (some "60d")).2 =
      Except.error FeatErr.emptyDataset :=
  c5_empty_dataset exA false "60d" (by decide)

/-- Witness for C10: anchoring on `ex10a` (households 1, 2) while
passing `ex10b` (household 3) as `df` — the output keys are those of
`ex10a`. -/
theorem c10_anchor_is_global_transactions_witness :
    ∃ lo hi rows,
      resolveWindow (some "90d") ((ex10b.map (fun t => t.day)).max?) =
        Except.ok (lo, hi, window_suffix "90d") ∧
      (get_features ex10a ex10b false (some "90d")).2 = Except.ok rows ∧
      rows = ((ex10a.map (gkey false)).dedup).map
        (mkFeatureRow false ex10b lo hi) ∧
      rows.map FeatureRow.key = (ex10a.map (gkey false)).dedup :=
  c10_anchor_is_global_transactions ex10a ex10b false "90d" (by decide)
    (by decide)
